import Mathlib

/-!
Verification development for the `mjcf-parser` repository.

The repository parses MuJoCo MJCF XML model files into geometric
descriptors.  The core logic lives in `src/tags/geom.rs`
(`parse_geom_node`) and `src/mjcf_model.rs` (`MJCFModel::parse_xml_string`,
`parse_worldbody`, `parse_geom`).  This file shallowly embeds that code:

* XML nodes (the `roxmltree` boundary) are modelled as a tree of elements
  with attribute lists; `roxmltree`'s textual XML parsing itself is an
  external library and is not modelled (its `BadXML` failure path is out of
  scope here).
* The scalar type `N : na::Real` of the Rust code is modelled as `ℝ`.
  Numeric attribute tokens are parsed exactly into `ℚ` and then cast into
  `ℝ`, modelling `N::from_str` on a decimal token.
* The `crate::attributes` module (`parse_real_vector_attribute`,
  `parse_orientation_attribute` and their error types) is not among the
  repository files under `src/`; those definitions are modelled from the
  spec (sections 4.1 and 4.2) and carry a `Modelled from the spec:` note.
* Logging: `warn!` diagnostics are modelled as a `List String` returned
  next to each result; `debug!` trace lines are not modelled (they carry
  no information the spec's claims mention).
-/

namespace MJCF

/-! ## XML document model (the `roxmltree` boundary)

`roxmltree::Node` is either an element (tag name, attributes, children) or
a non-element node (text, comment); `tag_name().name()` of a non-element
node is the empty string and it carries no attributes. -/

inductive XmlNode where
  | element (name : String) (attrs : List (String × String)) (children : List XmlNode)
  | text (s : String)

/-- `node.tag_name().name()`: the element name, `""` for non-element nodes. -/
def XmlNode.tagName : XmlNode → String
  | .element name _ _ => name
  | .text _ => ""

/-- `node.attributes()`. -/
def XmlNode.attrList : XmlNode → List (String × String)
  | .element _ attrs _ => attrs
  | .text _ => []

/-- `node.attribute(key)`: first attribute with that name (XML forbids
duplicates, `roxmltree` returns the first). -/
def XmlNode.attr (n : XmlNode) (key : String) : Option String :=
  ((n.attrList.find? (fun p => p.1 = key)).map (fun p => p.2))

/-- `node.has_attribute(key)`. -/
def XmlNode.hasAttr (n : XmlNode) (key : String) : Bool :=
  (n.attr key).isSome

/-- `node.children()`. -/
def XmlNode.children : XmlNode → List XmlNode
  | .element _ _ children => children
  | .text _ => []

/-! ## Attribute vector parser

Modelled from the spec: the `crate::attributes` module
(`parse_real_vector_attribute` and `ParseRealAttributeError`) is not under
`src/`.  Spec section 4.1: given a text attribute value and a required arity
`K`, split on whitespace, parse each token as a floating-point number, and
fail unless exactly `K` tokens were present and all parsed successfully; no
arity coercion.  Errors: `TooFewValues`, `TooManyValues`,
`ValueParseFailure{token, position}`.  Tokens are modelled as exact decimal
numbers read into `ℚ` (sign, digits, optional fractional digits). -/

def splitWsAux : List Char → List Char → List (List Char)
  | [], [] => []
  | [], cur => [cur.reverse]
  | c :: cs, cur =>
    if c.isWhitespace then
      if cur = [] then splitWsAux cs []
      else cur.reverse :: splitWsAux cs []
    else splitWsAux cs (c :: cur)

/-- Whitespace-separated tokens of an attribute value. -/
def splitWs (s : String) : List String :=
  (splitWsAux s.data []).map (fun cs => String.mk cs)

def digitsToNat : List Char → Option Nat
  | [] => none
  | cs => some (cs.foldl (fun acc c => 10 * acc + (c.toNat - 48)) 0)

def allDigits (cs : List Char) : Bool := cs.all (fun c => c.isDigit)

/-- One decimal token as an exact rational: optional minus sign, digits,
optionally a point and fractional digits. -/
def parseDecimal (cs : List Char) : Option ℚ :=
  let (sgn, rest) : ℚ × List Char :=
    match cs with
    | '-' :: rest => (-1, rest)
    | _ => (1, cs)
  match rest.splitOn '.' with
  | [intPart] =>
    if allDigits intPart then
      (digitsToNat intPart).map (fun n => sgn * (n : ℚ))
    else none
  | [intPart, fracPart] =>
    if allDigits intPart ∧ allDigits fracPart then
      match digitsToNat intPart, digitsToNat fracPart with
      | some n, some f => some (sgn * ((n : ℚ) + (f : ℚ) / (10 : ℚ) ^ fracPart.length))
      | _, _ => none
    else none
  | _ => none

inductive ParseRealAttributeError where
  | TooFewValues
  | TooManyValues
  | ValueParseFailure (token : String) (position : Nat)
  deriving DecidableEq

def parseRealTokens : List String → Nat → Except ParseRealAttributeError (List ℚ)
  | [], _ => .ok []
  | t :: ts, i =>
    match parseDecimal t.data with
    | none => .error (.ValueParseFailure t i)
    | some q =>
      match parseRealTokens ts (i + 1) with
      | .error e => .error e
      | .ok qs => .ok (q :: qs)

/-- Modelled from the spec: `attributes::parse_real_vector_attribute::<N, K>`
(spec section 4.1).  Returns the exactly-`k` parsed numbers in order. -/
def parse_real_vector_attribute (text : String) (k : Nat) :
    Except ParseRealAttributeError (List ℚ) :=
  let toks := splitWs text
  if toks.length < k then .error .TooFewValues
  else if k < toks.length then .error .TooManyValues
  else parseRealTokens toks 0

/-! ## Geometric data model (the `nalgebra` / `ncollide3d` boundary) -/

structure Vec3 where
  x : ℝ
  y : ℝ
  z : ℝ

def Vec3.sub (a b : Vec3) : Vec3 := ⟨a.x - b.x, a.y - b.y, a.z - b.z⟩

def Vec3.add (a b : Vec3) : Vec3 := ⟨a.x + b.x, a.y + b.y, a.z + b.z⟩

def Vec3.smul (a : Vec3) (c : ℝ) : Vec3 := ⟨a.x * c, a.y * c, a.z * c⟩

noncomputable def Vec3.norm (a : Vec3) : ℝ :=
  Real.sqrt (a.x ^ 2 + a.y ^ 2 + a.z ^ 2)

/-- `nalgebra`'s `p.metric_distance(&q)`: the Euclidean norm of `p - q`. -/
noncomputable def Vec3.metricDistance (p q : Vec3) : ℝ := (p.sub q).norm

/-- `na::Unit::new_normalize`: divide by the Euclidean norm. -/
noncomputable def Vec3.unitNormalize (a : Vec3) : Vec3 :=
  ⟨a.x / a.norm, a.y / a.norm, a.z / a.norm⟩

/-- Quaternion `(w, x, y, z)`. -/
structure Quat where
  w : ℝ
  x : ℝ
  y : ℝ
  z : ℝ

/-- The identity quaternion (`UnitQuaternion::identity`). -/
def quatId : Quat := ⟨1, 0, 0, 0⟩

/-- Hamilton product, used to compose rotations. -/
def Quat.mul (a b : Quat) : Quat :=
  ⟨a.w * b.w - a.x * b.x - a.y * b.y - a.z * b.z,
   a.w * b.x + a.x * b.w + a.y * b.z - a.z * b.y,
   a.w * b.y - a.x * b.z + a.y * b.w + a.z * b.x,
   a.w * b.z + a.x * b.y - a.y * b.x + a.z * b.w⟩

/-- The shape handles built by `parse_geom_node`:
`shape::Plane::new`, `shape::Ball::new`, `shape::Capsule::new(half_length,
radius)`, `shape::Cuboid::new(half_extents)`. -/
inductive ShapeSpec where
  | plane (normal : Vec3)
  | ball (radius : ℝ)
  | capsule (half_length : ℝ) (radius : ℝ)
  | cuboid (half_extents : Vec3)

/-- The observable outcome of `parse_geom_node`: an
`nphysics3d::object::ColliderDesc` after `set_name` (if a `name` attribute
was present) and `set_position(Isometry3::from_parts(translation,
orientation))`. -/
structure ColliderDesc where
  shape : ShapeSpec
  name : Option String
  translation : Vec3
  orientation : Quat

/-! ## Orientation resolver

Modelled from the spec: `attributes::parse_orientation_attribute` and
`ParseOrientationError` are not under `src/`.  Spec section 4.2: at most
one of `quat`, `axisangle`, `euler`, `xyaxes`, `zaxis` may be present
(more is a fatal `MultipleOrientations` error); with none present the
orientation is the identity; for a shape that is not direction-sensitive
(`segment_like = false`: sphere, plane) a present orientation attribute is
diagnosed as unsupported and never applied; otherwise the single present
representation is resolved to a unit quaternion.  Angles are degrees. -/

inductive ParseOrientationError where
  | MultipleOrientations
  | BadAttribute (e : ParseRealAttributeError)
  | NotNormalizable
  deriving DecidableEq

/-- The five mutually exclusive orientation attribute names, in the
resolution order of spec section 4.2. -/
def orientationAttrNames : List String :=
  ["quat", "axisangle", "euler", "xyaxes", "zaxis"]

def orientationIgnoredMsg (a : String) : String :=
  a ++ " orientation attribute is unsupported for this geom type"

open scoped Classical

def nthR (l : List ℚ) (i : Nat) : ℝ := ((l.getD i 0 : ℚ) : ℝ)

noncomputable def degToRad (deg : ℝ) : ℝ := deg * Real.pi / 180

/-- Rotation quaternion about a unit axis by an angle in radians. -/
noncomputable def axisAngleQuat (ux uy uz θ : ℝ) : Quat :=
  ⟨Real.cos (θ / 2), Real.sin (θ / 2) * ux, Real.sin (θ / 2) * uy,
   Real.sin (θ / 2) * uz⟩

/-- `quat="w x y z"`: must be normalizable (non-zero norm). -/
noncomputable def quatFromQuatAttr (t : String) : Except ParseOrientationError Quat :=
  match parse_real_vector_attribute t 4 with
  | .error e => .error (.BadAttribute e)
  | .ok l =>
    let w := nthR l 0
    let x := nthR l 1
    let y := nthR l 2
    let z := nthR l 3
    let n := Real.sqrt (w ^ 2 + x ^ 2 + y ^ 2 + z ^ 2)
    if n = 0 then .error .NotNormalizable
    else .ok ⟨w / n, x / n, y / n, z / n⟩

/-- `axisangle="x y z angle"`: non-zero axis, angle in degrees. -/
noncomputable def quatFromAxisAngleAttr (t : String) : Except ParseOrientationError Quat :=
  match parse_real_vector_attribute t 4 with
  | .error e => .error (.BadAttribute e)
  | .ok l =>
    let v : Vec3 := ⟨nthR l 0, nthR l 1, nthR l 2⟩
    let n := v.norm
    if n = 0 then .error .NotNormalizable
    else .ok (axisAngleQuat (v.x / n) (v.y / n) (v.z / n) (degToRad (nthR l 3)))

/-- `euler="a b c"`: intrinsic rotations about X, then Y, then Z (degrees). -/
noncomputable def quatFromEulerAttr (t : String) : Except ParseOrientationError Quat :=
  match parse_real_vector_attribute t 3 with
  | .error e => .error (.BadAttribute e)
  | .ok l =>
    let qx := axisAngleQuat 1 0 0 (degToRad (nthR l 0))
    let qy := axisAngleQuat 0 1 0 (degToRad (nthR l 1))
    let qz := axisAngleQuat 0 0 1 (degToRad (nthR l 2))
    .ok ((qx.mul qy).mul qz)

def Vec3.cross (a b : Vec3) : Vec3 :=
  ⟨a.y * b.z - a.z * b.y, a.z * b.x - a.x * b.z, a.x * b.y - a.y * b.x⟩

/-- Quaternion of the rotation with orthonormal column basis `(X, Y, Z)`,
by the standard trace-based (Shepperd) construction. -/
noncomputable def quatFromBasis (X Y Z : Vec3) : Quat :=
  let tr := X.x + Y.y + Z.z
  if 0 < tr then
    let s := Real.sqrt (tr + 1) * 2
    ⟨s / 4, (Y.z - Z.y) / s, (Z.x - X.z) / s, (X.y - Y.x) / s⟩
  else if Y.y < X.x ∧ Z.z < X.x then
    let s := Real.sqrt (1 + X.x - Y.y - Z.z) * 2
    ⟨(Y.z - Z.y) / s, s / 4, (Y.x + X.y) / s, (Z.x + X.z) / s⟩
  else if Z.z < Y.y then
    let s := Real.sqrt (1 + Y.y - X.x - Z.z) * 2
    ⟨(Z.x - X.z) / s, (Y.x + X.y) / s, s / 4, (Z.y + Y.z) / s⟩
  else
    let s := Real.sqrt (1 + Z.z - X.x - Y.y) * 2
    ⟨(X.y - Y.x) / s, (Z.x + X.z) / s, (Z.y + Y.z) / s, s / 4⟩

/-- `xyaxes="x1 x2 x3 y1 y2 y3"`: orthonormalize (Gram-Schmidt against the
X axis), third axis is the cross product; parallel input axes (zero cross
product) fail. -/
noncomputable def quatFromXYAxesAttr (t : String) : Except ParseOrientationError Quat :=
  match parse_real_vector_attribute t 6 with
  | .error e => .error (.BadAttribute e)
  | .ok l =>
    let vx : Vec3 := ⟨nthR l 0, nthR l 1, nthR l 2⟩
    let vy : Vec3 := ⟨nthR l 3, nthR l 4, nthR l 5⟩
    let c := vx.cross vy
    if c.norm = 0 then .error .NotNormalizable
    else
      let ex := vx.unitNormalize
      let ez := c.unitNormalize
      let ey := ez.cross ex
      .ok (quatFromBasis ex ey ez)

/-- `zaxis="x y z"`: the minimal rotation mapping global +Z to the
normalized vector (non-zero input required). -/
noncomputable def quatFromZAxisAttr (t : String) : Except ParseOrientationError Quat :=
  match parse_real_vector_attribute t 3 with
  | .error e => .error (.BadAttribute e)
  | .ok l =>
    let v : Vec3 := ⟨nthR l 0, nthR l 1, nthR l 2⟩
    if v.norm = 0 then .error .NotNormalizable
    else
      let u := v.unitNormalize
      if u.z = -1 then .ok ⟨0, 1, 0, 0⟩
      else
        let w := Real.sqrt ((1 + u.z) / 2)
        .ok ⟨w, -u.y / (2 * w), u.x / (2 * w), 0⟩

/-- Modelled from the spec: `attributes::parse_orientation_attribute`
(spec section 4.2).  Exclusivity is checked first; with `segment_like =
false` a single present orientation attribute is only diagnosed (warning
list), never applied. -/
noncomputable def parse_orientation_attribute (n : XmlNode) (segment_like : Bool) :
    Except ParseOrientationError Quat × List String :=
  let present := orientationAttrNames.filter (fun a => n.hasAttr a)
  if 1 < present.length then (.error .MultipleOrientations, [])
  else if present.length = 0 then (.ok quatId, [])
  else if segment_like then
    let r :=
      match n.attr "quat" with
      | some t => quatFromQuatAttr t
      | none =>
        match n.attr "axisangle" with
        | some t => quatFromAxisAngleAttr t
        | none =>
          match n.attr "euler" with
          | some t => quatFromEulerAttr t
          | none =>
            match n.attr "xyaxes" with
            | some t => quatFromXYAxesAttr t
            | none =>
              match n.attr "zaxis" with
              | some t => quatFromZAxisAttr t
              | none => .ok quatId
    (r, [])
  else (.ok quatId, present.map orientationIgnoredMsg)

/-! ## `GeomError` (src/tags/geom.rs, lines 11-37)

`BadRealAttribute` and `BadOrientation` are the `From` conversions of the
two attribute-parsing error types. -/

inductive GeomError where
  | InvalidType (geom_type : String)
  | UnsupportedType (geom_type : String)
  | RequiredAttributeMissing (attr : String)
  | BadRealAttribute (e : ParseRealAttributeError)
  | BadOrientation (e : ParseOrientationError)
  | MultiplePositions
  deriving DecidableEq

/-! ## `parse_geom_node` (src/tags/geom.rs, lines 39-261)

The function body is one sequence of four blocks; each block is embedded
as one definition over the attribute values it reads, and
`parse_geom_node` sequences them in the source's order (so an earlier
block's error preempts a later one's). -/

/-- The `shape_handle` match (geom.rs lines 50-131), as a function of the
`type`, `size` and `fromto` attribute values.  The `Some("sphere") | None`
arm is shared through `sphereSizeBranch`; string-literal match arms are
written as an equality chain. -/
noncomputable def sphereSizeBranch (size : Option String) :
    Except GeomError ShapeSpec :=
  match size with
  | some sizeText =>
    match parse_real_vector_attribute sizeText 1 with
    | .error e => .error (.BadRealAttribute e)
    | .ok sizes => .ok (.ball (nthR sizes 0))
  | none => .error (.RequiredAttributeMissing "size")

noncomputable def shapeCore (ty size fromto : Option String) :
    Except GeomError ShapeSpec × List String :=
  match ty with
  | none => (sphereSizeBranch size, [])
  | some t =>
    if t = "plane" then
      (.ok (.plane (Vec3.unitNormalize ⟨0, 0, 1⟩)),
       ["Size currently ignored", "Orientation currently ignored"])
    else if t = "hfield" then (.error (.UnsupportedType "hfield"), [])
    else if t = "sphere" then (sphereSizeBranch size, [])
    else if t = "capsule" then
      match size with
      | some sizeText =>
        match fromto with
        | some fromtoText =>
          match parse_real_vector_attribute sizeText 1 with
          | .error e => (.error (.BadRealAttribute e), [])
          | .ok sizes =>
            match parse_real_vector_attribute fromtoText 6 with
            | .error e => (.error (.BadRealAttribute e), [])
            | .ok ft =>
              let p0 : Vec3 := ⟨nthR ft 0, nthR ft 1, nthR ft 2⟩
              let p1 : Vec3 := ⟨nthR ft 3, nthR ft 4, nthR ft 5⟩
              (.ok (.capsule (p0.metricDistance p1 / 2) (nthR sizes 0)), [])
        | none =>
          match parse_real_vector_attribute sizeText 2 with
          | .error e => (.error (.BadRealAttribute e), [])
          | .ok sizes => (.ok (.capsule (nthR sizes 1) (nthR sizes 0)), [])
      | none => (.error (.RequiredAttributeMissing "size"), [])
    else if t = "ellipsoid" then (.error (.UnsupportedType "ellipsoid"), [])
    else if t = "cylinder" then (.error (.UnsupportedType "cylinder"), [])
    else if t = "box" then
      match size with
      | some sizeText =>
        match parse_real_vector_attribute sizeText 3 with
        | .error e => (.error (.BadRealAttribute e), [])
        | .ok sizes =>
          (.ok (.cuboid ⟨nthR sizes 0, nthR sizes 1, nthR sizes 2⟩), [])
      | none => (.error (.RequiredAttributeMissing "size"), [])
    else if t = "mesh" then (.error (.UnsupportedType "mesh"), [])
    else (.error (.InvalidType t), [])

noncomputable def shapeOf (n : XmlNode) : Except GeomError ShapeSpec × List String :=
  shapeCore (n.attr "type") (n.attr "size") (n.attr "fromto")

/-- The `translation` match (geom.rs lines 139-169), as a function of the
`type`, `fromto` and `pos` attribute values. -/
noncomputable def posBranch (pos : Option String) : Except GeomError Vec3 :=
  match pos with
  | some posText =>
    match parse_real_vector_attribute posText 3 with
    | .error e => .error (.BadRealAttribute e)
    | .ok v => .ok ⟨nthR v 0, nthR v 1, nthR v 2⟩
  | none => .ok ⟨0, 0, 0⟩

noncomputable def translationCore (ty fromto pos : Option String) :
    Except GeomError Vec3 :=
  match ty with
  | none => posBranch pos
  | some t =>
    if t = "plane" ∨ t = "sphere" then posBranch pos
    else if t = "capsule" ∨ t = "box" then
      match fromto with
      | some fromtoText =>
        if pos.isSome then .error .MultiplePositions
        else
          match parse_real_vector_attribute fromtoText 6 with
          | .error e => .error (.BadRealAttribute e)
          | .ok ft =>
            let p0 : Vec3 := ⟨nthR ft 0, nthR ft 1, nthR ft 2⟩
            let p1 : Vec3 := ⟨nthR ft 3, nthR ft 4, nthR ft 5⟩
            let dir := p1.sub p0
            .ok (p0.add (dir.smul 0.5))
      | none => posBranch pos
    else .error (.InvalidType t)

noncomputable def translationOf (n : XmlNode) : Except GeomError Vec3 :=
  translationCore (n.attr "type") (n.attr "fromto") (n.attr "pos")

/-- The `orientation` match (geom.rs lines 171-181): the flag passed to
`parse_orientation_attribute` is `false` for plane and sphere, `true` for
capsule and box.  Orientation-resolver errors are wrapped by the `From`
impl as `BadOrientation`. -/
noncomputable def orientationOf (n : XmlNode) :
    Except GeomError Quat × List String :=
  let wrap (r : Except ParseOrientationError Quat × List String) :
      Except GeomError Quat × List String :=
    (r.1.mapError .BadOrientation, r.2)
  match n.attr "type" with
  | none => wrap (parse_orientation_attribute n false)
  | some t =>
    if t = "plane" then wrap (parse_orientation_attribute n false)
    else if t = "sphere" then wrap (parse_orientation_attribute n false)
    else if t = "capsule" then wrap (parse_orientation_attribute n true)
    else if t = "box" then wrap (parse_orientation_attribute n true)
    else (.error (.InvalidType t), [])

/-- The 19 unsupported-attribute checks of geom.rs lines 184-258, in source
order. -/
def unsupportedGeomAttrNames : List String :=
  ["class", "contype", "conaffinity", "condim", "group", "priority",
   "material", "rgba", "friction", "mass", "density", "solmix", "solref",
   "solimpl", "margin", "gap", "hfield", "mesh", "fitscale"]

/-- The warning text of each check (geom.rs writes "unspported" for
`class` and "unsupported" for the rest). -/
def unsupportedGeomMsg (a : String) : String :=
  if a = "class" then "class attribute is currently unspported"
  else a ++ " attribute is currently unsupported"

/-- One warning per present unsupported attribute, in source order. -/
def auditWarnings (n : XmlNode) : List String :=
  (unsupportedGeomAttrNames.filter (fun a => n.hasAttr a)).map unsupportedGeomMsg

/-- `parse_geom_node` (geom.rs lines 39-261): shape handle, then `set_name`
for a present `name` attribute, then translation, then orientation, then
the unsupported-attribute warnings; the first error aborts with the
warnings emitted so far. -/
noncomputable def parse_geom_node (n : XmlNode) :
    Except GeomError ColliderDesc × List String :=
  match shapeOf n with
  | (.error e, w1) => (.error e, w1)
  | (.ok shape, w1) =>
    let name := n.attr "name"
    match translationOf n with
    | .error e => (.error e, w1)
    | .ok translation =>
      match orientationOf n with
      | (.error e, w2) => (.error e, w1 ++ w2)
      | (.ok orientation, w2) =>
        (.ok ⟨shape, name, translation, orientation⟩, w1 ++ w2 ++ auditWarnings n)

/-! ## Model-level parsing (src/mjcf_model.rs and src/error.rs)

`MJCFParseError` wraps a `MJCFParseErrorKind` in a `failure::Context`
(backtrace only); tests compare through `.kind()`, so the kind is the
error model here.  Note that `MJCFModel::parse_geom` in `mjcf_model.rs` is
a stub: every recognized `type` arm is an empty `// TODO` block, unknown
types return `InvalidGeomType`, and `parse_geom_node` of `tags/geom.rs` is
never invoked, so the model's `shapes`/`colliders`/`materials` maps stay
empty. -/

inductive MJCFParseErrorKind where
  | BadXML (message : String)
  | MissingRequiredTag (tag_name : String)
  | WorldBodyHasAttributes
  | WorldBodyInvalidChildren
  | InvalidGeomType (geom_type : String)
  deriving DecidableEq

structure MJCFModel where
  model_name : String
  shapes : List (String × ShapeSpec)
  colliders : List (String × ColliderDesc)
  materials : List String

/-- The geometry types recognized by the stub's match (mjcf_model.rs lines
116-130); each arm is an empty TODO block. -/
def stubRecognizedType (t : String) : Bool :=
  t = "plane" ∨ t = "hfield" ∨ t = "sphere" ∨ t = "capsule" ∨
  t = "ellipsoid" ∨ t = "cylinder" ∨ t = "box" ∨ t = "mesh"

/-- The unsupported-attribute warnings of the stub (mjcf_model.rs lines
132-230), emitted in source order after the type match succeeds. -/
def stubAttrNames : List String :=
  ["contype", "conaffinity", "condim", "group", "priority", "material",
   "rgba", "friction", "mass", "density", "solmix", "solref", "solimpl",
   "margin", "gap", "fromto", "pos", "quat", "axisangle", "xyaxes",
   "zaxis", "euler", "hfield", "mesh", "fitscale"]

def stubAttrWarnings (n : XmlNode) : List String :=
  (stubAttrNames.filter (fun a => n.hasAttr a)).map unsupportedGeomMsg

/-- `MJCFModel::parse_geom` (mjcf_model.rs lines 100-233): synthesizes a
name (explicit attribute or `shapes.len()` rendered as text — computed but
unused by the stub), warns about `class`, matches the type (unknown types
fail with `InvalidGeomType`), then warns per present unsupported
attribute. -/
def MJCFModel.parse_geom (m : MJCFModel) (geom_node : XmlNode) :
    Except MJCFParseErrorKind Unit × List String :=
  let _name :=
    match geom_node.attr "name" with
    | some name => name
    | none => toString m.shapes.length
  let classWarn : List String :=
    if geom_node.hasAttr "class" then ["class attribute is currently unspported"]
    else []
  match geom_node.attr "type" with
  | none => (.ok (), classWarn ++ stubAttrWarnings geom_node)
  | some t =>
    if stubRecognizedType t then (.ok (), classWarn ++ stubAttrWarnings geom_node)
    else (.error (.InvalidGeomType t), classWarn)

/-- The `for child in worldbody_node.children()` loop of `parse_worldbody`
(mjcf_model.rs lines 81-95): `inertial`/`joint`/`freejoint` abort,
`body`/`site`/`camera`/`light` are TODO no-ops, `geom` is parsed, any
other tag warns. -/
def worldbodyChildrenLoop (m : MJCFModel) :
    List XmlNode → Except MJCFParseErrorKind Unit × List String
  | [] => (.ok (), [])
  | child :: rest =>
    if child.tagName = "inertial" ∨ child.tagName = "joint" ∨
        child.tagName = "freejoint" then
      (.error .WorldBodyInvalidChildren, [])
    else if child.tagName = "body" then worldbodyChildrenLoop m rest
    else if child.tagName = "geom" then
      match m.parse_geom child with
      | (.error e, w) => (.error e, w)
      | (.ok _, w) =>
        match worldbodyChildrenLoop m rest with
        | (r, w2) => (r, w ++ w2)
    else if child.tagName = "site" ∨ child.tagName = "camera" ∨
        child.tagName = "light" then
      worldbodyChildrenLoop m rest
    else
      match worldbodyChildrenLoop m rest with
      | (r, w2) => (r, ("Ignorning unsupported tag " ++ child.tagName) :: w2)

/-- `MJCFModel::parse_worldbody` (mjcf_model.rs lines 69-98). -/
def MJCFModel.parse_worldbody (m : MJCFModel) (worldbody_node : XmlNode) :
    Except MJCFParseErrorKind Unit × List String :=
  if worldbody_node.attrList ≠ [] then (.error .WorldBodyHasAttributes, [])
  else worldbodyChildrenLoop m worldbody_node.children

/-- The `for child in root.children()` loop of `parse_xml_string`
(mjcf_model.rs lines 59-64): only `worldbody` children are handled, every
other child falls into the silent `_ => {}` arm. -/
def rootChildrenLoop (m : MJCFModel) :
    List XmlNode → Except MJCFParseErrorKind Unit × List String
  | [] => (.ok (), [])
  | child :: rest =>
    if child.tagName = "worldbody" then
      match m.parse_worldbody child with
      | (.error e, w) => (.error e, w)
      | (.ok _, w) =>
        match rootChildrenLoop m rest with
        | (r, w2) => (r, w ++ w2)
    else rootChildrenLoop m rest

/-- The model value `parse_xml_string` starts from: placeholder name
(renamed by the root's `model` attribute) and empty maps. -/
def initialModel (root : XmlNode) : MJCFModel :=
  { model_name := (root.attr "model").getD "MuJoCo Model",
    shapes := [], colliders := [], materials := [] }

/-- `MJCFModel::parse_xml_string` (mjcf_model.rs lines 22-67), from the
document's root element on (the `roxmltree::Document::parse` call and its
`BadXML` error path are the external XML library's).  The root must be
`mujoco`; its `model` attribute renames the model from the `"MuJoCo
Model"` placeholder; then the child loop runs.  No code path inserts into
`shapes`, `colliders` or `materials`. -/
def MJCFModel.parse_xml_string (root : XmlNode) :
    Except MJCFParseErrorKind MJCFModel × List String :=
  if root.tagName ≠ "mujoco" then (.error (.MissingRequiredTag "mujoco"), [])
  else
    match rootChildrenLoop (initialModel root) root.children with
    | (.error e, w) => (.error e, w)
    | (.ok _, w) => (.ok (initialModel root), w)

/-! ## Concrete documents and nodes used to instantiate the theorems -/

/-- `n` with one more attribute appended (an XML element may not repeat an
attribute name, so this models adding an attribute the element did not
carry). -/
def XmlNode.withAttr : XmlNode → String → String → XmlNode
  | .element nm attrs ch, a, v => .element nm (attrs ++ [(a, v)]) ch
  | .text s, _, _ => .text s

/-- `<geom type="capsule" size="1" fromto="0 0 0 0 0 2"></geom>` -/
def capsuleFromtoNode : XmlNode :=
  .element "geom" [("type", "capsule"), ("size", "1"), ("fromto", "0 0 0 0 0 2")] []

/-- `<geom size="-1"></geom>` -/
def negativeSizeNode : XmlNode := .element "geom" [("size", "-1")] []

/-- `<geom type="capsule" size="-1 -2"></geom>` -/
def capsuleNegSizeNode : XmlNode :=
  .element "geom" [("type", "capsule"), ("size", "-1 -2")] []

/-- `<geom type="capsule" size="-1" fromto="0 0 0 0 0 2"></geom>` -/
def capsuleFromtoNegRadiusNode : XmlNode :=
  .element "geom" [("type", "capsule"), ("size", "-1"), ("fromto", "0 0 0 0 0 2")] []

/-- `<geom type="box" size="-1 -2 -3"></geom>` -/
def boxNegSizeNode : XmlNode :=
  .element "geom" [("type", "box"), ("size", "-1 -2 -3")] []

/-- `<geom type="mesh"></geom>` -/
def meshGeomNode : XmlNode := .element "geom" [("type", "mesh")] []

/-- `<geom type="spline"></geom>` -/
def splineGeomNode : XmlNode := .element "geom" [("type", "spline")] []

/-- `<mujoco><worldbody><geom type="mesh"></geom></worldbody></mujoco>` -/
def meshGeomDoc : XmlNode :=
  .element "mujoco" [] [.element "worldbody" [] [meshGeomNode]]

/-- The empty model value `parse_xml_string` starts from (placeholder
name, empty maps). -/
def emptyModel : MJCFModel :=
  { model_name := "MuJoCo Model", shapes := [], colliders := [], materials := [] }

/-- `<geom type="capsule" size="1" fromto="0 0 0 0 0 2" pos="1 1 1"></geom>` -/
def capsuleFromtoPosNode : XmlNode :=
  .element "geom"
    [("type", "capsule"), ("size", "1"), ("fromto", "0 0 0 0 0 2"), ("pos", "1 1 1")] []

/-- `<geom type="plane" quat="1 0 0 0"></geom>` -/
def planeQuatNode : XmlNode :=
  .element "geom" [("type", "plane"), ("quat", "1 0 0 0")] []

/-- `<geom size="2"></geom>` -/
def sphereDefaultNode : XmlNode := .element "geom" [("size", "2")] []

/-- `<geom type="sphere" size="2"></geom>` -/
def sphereTypedNode : XmlNode :=
  .element "geom" [("type", "sphere"), ("size", "2")] []

/-- `<geom type="sphere" size="1" quat="1 0 0 0" euler="0 0 0"></geom>` -/
def sphereQuatEulerNode : XmlNode :=
  .element "geom"
    [("type", "sphere"), ("size", "1"), ("quat", "1 0 0 0"), ("euler", "0 0 0")] []

/-- `<mujoco><worldbody><joint></joint></worldbody></mujoco>` -/
def jointChildDoc : XmlNode :=
  .element "mujoco" [] [.element "worldbody" [] [.element "joint" [] []]]

/-- `<mujoco><asset></asset><worldbody></worldbody></mujoco>` -/
def assetThenWorldbodyDoc : XmlNode :=
  .element "mujoco" [] [.element "asset" [] [], .element "worldbody" [] []]

/-- `<mujoco><worldbody></worldbody></mujoco>` -/
def worldbodyOnlyDoc : XmlNode :=
  .element "mujoco" [] [.element "worldbody" [] []]

/-! ## Theorems -/

/-- C6: for every positive (finite) value `r` carried by a `size`
attribute string, `<geom size="r"></geom>` (type omitted) and
`<geom type="sphere" size="r"></geom>` both parse successfully into the
same descriptor: a `Ball` of radius `r` posed at the origin with identity
orientation (geom.rs lines 61-68 and 139-143: the `Some("sphere") | None`
arms are shared). -/
theorem sphere_default_type_equals_explicit (s : String) (r : ℚ)
    (hp : parse_real_vector_attribute s 1 = .ok [r]) (hr : 0 < r) :
    (parse_geom_node (.element "geom" [("size", s)] [])).1 =
      .ok ⟨.ball (r : ℝ), none, ⟨0, 0, 0⟩, quatId⟩ ∧
    (parse_geom_node (.element "geom" [("type", "sphere"), ("size", s)] [])).1 =
      .ok ⟨.ball (r : ℝ), none, ⟨0, 0, 0⟩, quatId⟩ := by
  constructor <;>
    simp [parse_geom_node, shapeOf, shapeCore, sphereSizeBranch, translationOf,
      translationCore, posBranch, orientationOf, parse_orientation_attribute,
      orientationAttrNames, XmlNode.attr, XmlNode.attrList, XmlNode.hasAttr,
      List.find?, hp, nthR, quatId, Except.mapError]

/-- C6 witness: `size="2"` in both forms. -/
theorem sphere_default_type_equals_explicit_witness :
    (parse_geom_node sphereDefaultNode).1 =
      .ok ⟨.ball ((2 : ℚ) : ℝ), none, ⟨0, 0, 0⟩, quatId⟩ ∧
    (parse_geom_node sphereTypedNode).1 =
      .ok ⟨.ball ((2 : ℚ) : ℝ), none, ⟨0, 0, 0⟩, quatId⟩ :=
  sphere_default_type_equals_explicit "2" 2 (by with_unfolding_all rfl) (by norm_num)

/-- C2 counterexample: `<geom size="-1"></geom>` parses successfully and
returns a sphere of radius `-1`, a strictly negative dimension — the
claimed fail-before-returning validation does not exist in
`parse_geom_node` (geom.rs lines 61-68 use the parsed value unchecked). -/
theorem negative_radius_accepted :
    (parse_geom_node negativeSizeNode).1 =
      .ok ⟨.ball ((-1 : ℚ) : ℝ), none, ⟨0, 0, 0⟩, quatId⟩ ∧
    ((-1 : ℚ) : ℝ) < 0 := by
  constructor
  · with_unfolding_all rfl
  · norm_num

/-- C2 amended: the shape block of `parse_geom_node` performs no
positivity or finiteness validation on any shape's dimensions.  Every
numeric dimension of every returned shape is taken from the parsed
attribute values without any sign or range check: the sphere radius
(geom.rs lines 61-68), the capsule radius and half-length — the latter
from the arity-2 `size` or derived as half the `fromto` distance, with
the radius unchecked in both modes (lines 70-101) — and each box
half-extent (lines 113-119). -/
theorem shape_dimensions_unvalidated :
    (∀ (n : XmlNode) (s : String) (r : ℚ),
      (n.attr "type" = none ∨ n.attr "type" = some "sphere") →
      n.attr "size" = some s → parse_real_vector_attribute s 1 = .ok [r] →
      (shapeOf n).1 = .ok (.ball (r : ℝ))) ∧
    (∀ (n : XmlNode) (s : String) (r h : ℚ),
      n.attr "type" = some "capsule" → n.attr "fromto" = none →
      n.attr "size" = some s → parse_real_vector_attribute s 2 = .ok [r, h] →
      (shapeOf n).1 = .ok (.capsule (h : ℝ) (r : ℝ))) ∧
    (∀ (n : XmlNode) (s ft : String) (r a1 a2 a3 b1 b2 b3 : ℚ),
      n.attr "type" = some "capsule" → n.attr "fromto" = some ft →
      n.attr "size" = some s → parse_real_vector_attribute s 1 = .ok [r] →
      parse_real_vector_attribute ft 6 = .ok [a1, a2, a3, b1, b2, b3] →
      (shapeOf n).1 = .ok (.capsule
        (Vec3.metricDistance ⟨(a1 : ℝ), (a2 : ℝ), (a3 : ℝ)⟩
          ⟨(b1 : ℝ), (b2 : ℝ), (b3 : ℝ)⟩ / 2) (r : ℝ))) ∧
    (∀ (n : XmlNode) (s : String) (e1 e2 e3 : ℚ),
      n.attr "type" = some "box" → n.attr "size" = some s →
      parse_real_vector_attribute s 3 = .ok [e1, e2, e3] →
      (shapeOf n).1 = .ok (.cuboid ⟨(e1 : ℝ), (e2 : ℝ), (e3 : ℝ)⟩)) := by
  refine ⟨fun n s r hty hsz hp => ?_, fun n s r h hty hff hsz hp => ?_,
    fun n s ft r a1 a2 a3 b1 b2 b3 hty hfa hsz hsp hfp => ?_,
    fun n s e1 e2 e3 hty hsz hp => ?_⟩
  · rcases hty with h | h <;>
      simp [shapeOf, shapeCore, sphereSizeBranch, h, hsz, hp, nthR]
  · simp [shapeOf, shapeCore, hty, hff, hsz, hp, nthR]
  · simp [shapeOf, shapeCore, hty, hfa, hsz, hsp, hfp, nthR]
  · simp [shapeOf, shapeCore, hty, hsz, hp, nthR]

/-- C2 amended witness: strictly negative dimensions flow through for
every shape — sphere radius `-1`, capsule radius `-1` and half-length
`-2` (and, in `fromto` mode, radius `-1`), box half-extents
`(-1, -2, -3)`. -/
theorem shape_dimensions_unvalidated_witness :
    (shapeOf negativeSizeNode).1 = .ok (.ball ((-1 : ℚ) : ℝ)) ∧
    (shapeOf capsuleNegSizeNode).1 =
      .ok (.capsule ((-2 : ℚ) : ℝ) ((-1 : ℚ) : ℝ)) ∧
    (shapeOf capsuleFromtoNegRadiusNode).1 =
      .ok (.capsule 1 ((-1 : ℚ) : ℝ)) ∧
    (shapeOf boxNegSizeNode).1 =
      .ok (.cuboid ⟨((-1 : ℚ) : ℝ), ((-2 : ℚ) : ℝ), ((-3 : ℚ) : ℝ)⟩) ∧
    ((-1 : ℚ) : ℝ) < 0 ∧ ((-2 : ℚ) : ℝ) < 0 ∧ ((-3 : ℚ) : ℝ) < 0 := by
  refine ⟨shape_dimensions_unvalidated.1 negativeSizeNode "-1" (-1)
      (Or.inl (by with_unfolding_all rfl)) (by with_unfolding_all rfl)
      (by with_unfolding_all rfl),
    shape_dimensions_unvalidated.2.1 capsuleNegSizeNode "-1 -2" (-1) (-2)
      (by with_unfolding_all rfl) (by with_unfolding_all rfl)
      (by with_unfolding_all rfl) (by with_unfolding_all rfl),
    ?_,
    shape_dimensions_unvalidated.2.2.2 boxNegSizeNode "-1 -2 -3" (-1) (-2) (-3)
      (by with_unfolding_all rfl) (by with_unfolding_all rfl)
      (by with_unfolding_all rfl),
    by norm_num, by norm_num, by norm_num⟩
  have h := shape_dimensions_unvalidated.2.2.1 capsuleFromtoNegRadiusNode
    "-1" "0 0 0 0 0 2" (-1) 0 0 0 0 0 2
    (by with_unfolding_all rfl) (by with_unfolding_all rfl)
    (by with_unfolding_all rfl) (by with_unfolding_all rfl)
    (by with_unfolding_all rfl)
  rw [h]
  have hs4 : Real.sqrt 4 = 2 := by
    rw [show (4 : ℝ) = 2 ^ 2 by norm_num]
    exact Real.sqrt_sq (by norm_num)
  simp only [Vec3.metricDistance, Vec3.sub, Vec3.norm]
  push_cast
  norm_num [hs4]

/-- C3 counterexample: at the model-parsing entry point
(`MJCFModel::parse_xml_string`),
`<mujoco><worldbody><geom type="mesh"></geom></worldbody></mujoco>` parses
successfully — `MJCFModel::parse_geom` (mjcf_model.rs lines 116-130) is a
stub whose `Some("mesh")` arm is an empty TODO block, so no
`UnsupportedGeometryType` failure reaches callers of the entry point (its
error enum has no such variant at all). -/
theorem mesh_accepted_at_model_level :
    (MJCFModel.parse_xml_string meshGeomDoc).1 = .ok emptyModel := by
  with_unfolding_all rfl

/-- C3 amended: the distinction lives in the geom-tag resolver
`parse_geom_node` (geom.rs lines 50-131): recognized-but-unimplemented
types (`hfield`, `ellipsoid`, `cylinder`, `mesh`) fail with
`UnsupportedType` carrying the type string, any other unrecognized string
fails with `InvalidType` carrying the string, and the two constructors are
distinguishable by its callers.  The model-parsing entry point does not
invoke it: its stub accepts every recognized type and reports only
`InvalidGeomType` for unknown type strings. -/
theorem geom_type_error_distinction :
    (∀ n : XmlNode, ∀ t : String, n.attr "type" = some t →
      ((t = "hfield" ∨ t = "ellipsoid" ∨ t = "cylinder" ∨ t = "mesh") →
        (parse_geom_node n).1 = .error (.UnsupportedType t)) ∧
      (t ∉ (["plane", "hfield", "sphere", "capsule", "ellipsoid", "cylinder",
             "box", "mesh"] : List String) →
        (parse_geom_node n).1 = .error (.InvalidType t))) ∧
    (∀ t u : String, GeomError.UnsupportedType t ≠ GeomError.InvalidType u) ∧
    (∀ m : MJCFModel, ∀ n : XmlNode, ∀ t : String, n.attr "type" = some t →
      stubRecognizedType t = false →
      (m.parse_geom n).1 = .error (.InvalidGeomType t)) := by
  refine ⟨fun n t hty => ⟨fun hu => ?_, fun hi => ?_⟩, fun t u h => GeomError.noConfusion h,
    fun m n t hty hun => ?_⟩
  · rcases hu with rfl | rfl | rfl | rfl <;>
      simp [parse_geom_node, shapeOf, shapeCore, hty]
  · simp only [List.mem_cons, List.not_mem_nil, or_false, not_or] at hi
    obtain ⟨h1, h2, h3, h4, h5, h6, h7, h8⟩ := hi
    simp [parse_geom_node, shapeOf, shapeCore, hty, h1, h2, h3, h4, h5, h6, h7, h8]
  · simp [MJCFModel.parse_geom, hty, hun]

/-- C3 amended witness: `mesh` vs `spline` at the geom resolver, `spline`
at the model-level stub. -/
theorem geom_type_error_distinction_witness :
    (parse_geom_node meshGeomNode).1 = .error (.UnsupportedType "mesh") ∧
    (parse_geom_node splineGeomNode).1 = .error (.InvalidType "spline") ∧
    (emptyModel.parse_geom splineGeomNode).1 = .error (.InvalidGeomType "spline") :=
  ⟨(geom_type_error_distinction.1 meshGeomNode "mesh" (by with_unfolding_all rfl)).1
      (by simp),
   (geom_type_error_distinction.1 splineGeomNode "spline" (by with_unfolding_all rfl)).2
      (by decide),
   geom_type_error_distinction.2.2 emptyModel splineGeomNode "spline"
      (by with_unfolding_all rfl) (by decide)⟩

/-- C4: a capsule or box `<geom>` carrying both `pos` and `fromto` fails
with `MultiplePositions` (geom.rs lines 144-147); the shape-construction
block runs first, so its success (e.g. a well-formed `size`) is assumed so
that no earlier error preempts the translation block. -/
theorem pos_and_fromto_conflict (n : XmlNode) (t : String)
    (hty : n.attr "type" = some t) (hcb : t = "capsule" ∨ t = "box")
    (hs : (shapeOf n).1.isOk = true)
    (hf : n.hasAttr "fromto" = true) (hp : n.hasAttr "pos" = true) :
    (parse_geom_node n).1 = .error .MultiplePositions := by
  obtain ⟨ft, hft⟩ : ∃ ft, n.attr "fromto" = some ft := by
    rcases h : n.attr "fromto" with _ | ft
    · simp [XmlNode.hasAttr, h] at hf
    · exact ⟨ft, rfl⟩
  have hps : (n.attr "pos").isSome = true := by simpa [XmlNode.hasAttr] using hp
  have htr : translationOf n = .error .MultiplePositions := by
    rcases hcb with rfl | rfl <;> simp [translationOf, translationCore, hty, hft, hps]
  rcases hsh : shapeOf n with ⟨rs, w1⟩
  cases rs with
  | error e => rw [hsh] at hs; simp [Except.isOk, Except.toBool] at hs
  | ok sh => simp [parse_geom_node, hsh, htr]

/-- C4 witness: capsule with `size`, `fromto` and `pos` all present. -/
theorem pos_and_fromto_conflict_witness :
    (parse_geom_node capsuleFromtoPosNode).1 = .error .MultiplePositions :=
  pos_and_fromto_conflict capsuleFromtoPosNode "capsule"
    (by with_unfolding_all rfl) (Or.inl rfl) (by with_unfolding_all rfl)
    (by with_unfolding_all rfl) (by with_unfolding_all rfl)

/-- `Unit::new_normalize(Vector3::z())` is the +Z axis itself. -/
theorem unitNormalize_zAxis : Vec3.unitNormalize ⟨0, 0, 1⟩ = ⟨0, 0, 1⟩ := by
  simp [Vec3.unitNormalize, Vec3.norm]

/-- `Except.mapError` sends `ok` to `ok` only. -/
theorem mapError_eq_ok {ε ε' α : Type} (f : ε → ε') (x : Except ε α) (a : α)
    (h : x.mapError f = .ok a) : x = .ok a := by
  cases x with
  | error e => simp [Except.mapError] at h
  | ok b => simpa [Except.mapError] using h

/-- C5: a successfully parsed `<geom type="plane">` always has the
canonical +Z normal and the identity orientation, and each orientation
attribute present on it is only diagnosed (one entry in the warning list),
never applied (geom.rs lines 51-54 and 171-172: the plane arm passes
`false` to the orientation resolver). -/
theorem plane_normal_fixed (n : XmlNode) (d : ColliderDesc)
    (hty : n.attr "type" = some "plane")
    (hd : (parse_geom_node n).1 = .ok d) :
    d.shape = .plane ⟨0, 0, 1⟩ ∧ d.orientation = quatId ∧
    ∀ a ∈ orientationAttrNames, n.hasAttr a = true →
      orientationIgnoredMsg a ∈ (parse_geom_node n).2 := by
  have hsh : shapeOf n = (.ok (.plane (Vec3.unitNormalize ⟨0, 0, 1⟩)),
      ["Size currently ignored", "Orientation currently ignored"]) := by
    simp [shapeOf, shapeCore, hty]
  rcases htr : translationOf n with e | tv
  · simp [parse_geom_node, hsh, htr] at hd
  · rcases horr : orientationOf n with ⟨oq, w2⟩
    have horr2 : ((parse_orientation_attribute n false).1.mapError .BadOrientation,
        (parse_orientation_attribute n false).2) = (oq, w2) := by
      rw [← horr]; simp [orientationOf, hty]
    cases oq with
    | error e2 => simp [parse_geom_node, hsh, htr, horr] at hd
    | ok q =>
      have hparse : parse_geom_node n = (.ok ⟨.plane (Vec3.unitNormalize ⟨0, 0, 1⟩),
          n.attr "name", tv, q⟩,
          ["Size currently ignored", "Orientation currently ignored"] ++ w2 ++
            auditWarnings n) := by
        simp [parse_geom_node, hsh, htr, horr]
      rw [hparse] at hd
      simp only [Except.ok.injEq] at hd
      subst hd
      have hq : (parse_orientation_attribute n false).1 = .ok q :=
        mapError_eq_ok _ _ _ (congrArg Prod.fst horr2)
      have hw2 : (parse_orientation_attribute n false).2 = w2 :=
        congrArg Prod.snd horr2
      by_cases h1 : 1 < (orientationAttrNames.filter (fun a => n.hasAttr a)).length
      · rw [show parse_orientation_attribute n false =
            (.error .MultipleOrientations, []) by
          simp [parse_orientation_attribute, h1]] at hq
        simp at hq
      · by_cases h0 : (orientationAttrNames.filter (fun a => n.hasAttr a)).length = 0
        · have hpo : parse_orientation_attribute n false = (.ok quatId, []) := by
            simp [parse_orientation_attribute, h1, h0]
          rw [hpo] at hq hw2
          simp only [Except.ok.injEq] at hq
          refine ⟨by simp [unitNormalize_zAxis], hq.symm, fun a ha hpa => ?_⟩
          exfalso
          have : a ∈ orientationAttrNames.filter (fun a => n.hasAttr a) :=
            List.mem_filter.mpr ⟨ha, hpa⟩
          rw [List.length_eq_zero] at h0
          simp [h0] at this
        · have hpo : parse_orientation_attribute n false = (.ok quatId,
              (orientationAttrNames.filter (fun a => n.hasAttr a)).map
                orientationIgnoredMsg) := by
            simp [parse_orientation_attribute, h1, h0]
          rw [hpo] at hq hw2
          simp only [Except.ok.injEq] at hq
          refine ⟨by simp [unitNormalize_zAxis], hq.symm, fun a ha hpa => ?_⟩
          rw [hparse]
          simp only [List.mem_append]
          left; right
          rw [← hw2]
          exact List.mem_map_of_mem _ (List.mem_filter.mpr ⟨ha, hpa⟩)

/-- C5 witness: a plane with a `quat` attribute parses to the +Z normal,
identity orientation, and the quat attribute is diagnosed. -/
theorem plane_normal_fixed_witness :
    ∃ d : ColliderDesc, (parse_geom_node planeQuatNode).1 = .ok d ∧
      d.shape = .plane ⟨0, 0, 1⟩ ∧ d.orientation = quatId ∧
      orientationIgnoredMsg "quat" ∈ (parse_geom_node planeQuatNode).2 := by
  have hd : (parse_geom_node planeQuatNode).1 =
      .ok ⟨.plane (Vec3.unitNormalize ⟨0, 0, 1⟩), none, ⟨0, 0, 0⟩, quatId⟩ := by
    with_unfolding_all rfl
  obtain ⟨h1, h2, h3⟩ := plane_normal_fixed planeQuatNode _ (by with_unfolding_all rfl) hd
  exact ⟨_, hd, h1, h2, h3 "quat" (by simp [orientationAttrNames])
    (by with_unfolding_all rfl)⟩

/-- A list containing two different elements has length at least two. -/
theorem two_le_length_of_mem_of_mem {α : Type} {l : List α} {a b : α}
    (ha : a ∈ l) (hb : b ∈ l) (hab : a ≠ b) : 2 ≤ l.length := by
  match l with
  | [] => simp at ha
  | [x] =>
    simp at ha hb
    exact absurd (ha.trans hb.symm) hab
  | x :: y :: rest => simp [Nat.le_add_left]

/-- C7: on an orientation-capable `<geom>` (type absent, `sphere`,
`capsule` or `box`) carrying two different orientation attributes from
`{quat, axisangle, euler, xyaxes, zaxis}`, parsing fails with the
`MultipleOrientations` error (wrapped as `BadOrientation` by geom.rs's
`From` impl); the shape and translation blocks run first, so their success
is assumed so that no earlier error preempts the orientation block. -/
theorem multiple_orientations_rejected (n : XmlNode) (a b : String)
    (hty : n.attr "type" = none ∨ n.attr "type" = some "sphere" ∨
      n.attr "type" = some "capsule" ∨ n.attr "type" = some "box")
    (hs : (shapeOf n).1.isOk = true) (ht : (translationOf n).isOk = true)
    (hao : a ∈ orientationAttrNames) (hbo : b ∈ orientationAttrNames)
    (hab : a ≠ b)
    (hpa : n.hasAttr a = true) (hpb : n.hasAttr b = true) :
    (parse_geom_node n).1 = .error (.BadOrientation .MultipleOrientations) := by
  have hlen : 1 < (orientationAttrNames.filter (fun x => n.hasAttr x)).length := by
    have ha2 : a ∈ orientationAttrNames.filter (fun x => n.hasAttr x) :=
      List.mem_filter.mpr ⟨hao, hpa⟩
    have hb2 : b ∈ orientationAttrNames.filter (fun x => n.hasAttr x) :=
      List.mem_filter.mpr ⟨hbo, hpb⟩
    exact two_le_length_of_mem_of_mem ha2 hb2 hab
  have hpo : ∀ flag : Bool, parse_orientation_attribute n flag =
      (.error .MultipleOrientations, []) := by
    intro flag
    simp [parse_orientation_attribute, hlen]
  have horr : orientationOf n = (.error (.BadOrientation .MultipleOrientations), []) := by
    rcases hty with h | h | h | h <;> simp [orientationOf, h, hpo, Except.mapError]
  rcases hsh : shapeOf n with ⟨rs, w1⟩
  cases rs with
  | error e => rw [hsh] at hs; simp [Except.isOk, Except.toBool] at hs
  | ok sh =>
    rcases htr : translationOf n with e | tv
    · rw [htr] at ht; simp [Except.isOk, Except.toBool] at ht
    · simp [parse_geom_node, hsh, htr, horr]

/-- C7 witness: a sphere with both `quat` and `euler`. -/
theorem multiple_orientations_rejected_witness :
    (parse_geom_node sphereQuatEulerNode).1 =
      .error (.BadOrientation .MultipleOrientations) :=
  multiple_orientations_rejected sphereQuatEulerNode "quat" "euler"
    (Or.inr (Or.inl (by with_unfolding_all rfl)))
    (by with_unfolding_all rfl) (by with_unfolding_all rfl)
    (by simp [orientationAttrNames]) (by simp [orientationAttrNames])
    (by decide) (by with_unfolding_all rfl) (by with_unfolding_all rfl)

/-- C1: a capsule `<geom>` with a six-number `fromto` (point A then point
B) and a size supplying the radius resolves to the midpoint of A and B as
translation and half the Euclidean distance between A and B as
half-length; the half-length never derives from `size`, which in `fromto`
mode is parsed with arity 1 and supplies only the radius (geom.rs lines
70-101 and 144-163). -/
theorem capsule_fromto_midpoint (n : XmlNode) (ft st : String)
    (a1 a2 a3 b1 b2 b3 r : ℚ) (q : Quat)
    (hty : n.attr "type" = some "capsule")
    (hfa : n.attr "fromto" = some ft)
    (hft : parse_real_vector_attribute ft 6 = .ok [a1, a2, a3, b1, b2, b3])
    (hsa : n.attr "size" = some st)
    (hst : parse_real_vector_attribute st 1 = .ok [r])
    (hpos : n.attr "pos" = none)
    (hq : (orientationOf n).1 = .ok q) :
    (parse_geom_node n).1 = .ok
      ⟨.capsule (Real.sqrt (((b1 : ℝ) - a1) ^ 2 + ((b2 : ℝ) - a2) ^ 2 +
          ((b3 : ℝ) - a3) ^ 2) / 2) (r : ℝ),
       n.attr "name",
       ⟨((a1 : ℝ) + b1) / 2, ((a2 : ℝ) + b2) / 2, ((a3 : ℝ) + b3) / 2⟩, q⟩ := by
  rcases horr : orientationOf n with ⟨oq, w2⟩
  rw [horr] at hq
  simp only at hq
  subst hq
  simp [parse_geom_node, shapeOf, shapeCore, hty, hfa, hsa, hft, hst, nthR,
    translationOf, translationCore, hpos, horr, Vec3.metricDistance, Vec3.sub,
    Vec3.norm, Vec3.add, Vec3.smul]
  refine ⟨by congr 1; ring, by ring, by ring, by ring⟩

/-- C1 witness: `fromto="0 0 0 0 0 2"` with `size="1"` yields translation
`(0,0,1)` and half-length `1`. -/
theorem capsule_fromto_midpoint_witness :
    (parse_geom_node capsuleFromtoNode).1 =
      .ok ⟨.capsule 1 ((1 : ℚ) : ℝ), none, ⟨0, 0, 1⟩, quatId⟩ := by
  have h := capsule_fromto_midpoint capsuleFromtoNode "0 0 0 0 0 2" "1"
    0 0 0 0 0 2 1 quatId
    (by with_unfolding_all rfl) (by with_unfolding_all rfl)
    (by with_unfolding_all rfl) (by with_unfolding_all rfl)
    (by with_unfolding_all rfl) (by with_unfolding_all rfl)
    (by with_unfolding_all rfl)
  rw [show capsuleFromtoNode.attr "name" = none from by with_unfolding_all rfl] at h
  rw [h]
  have hs4 : Real.sqrt 4 = 2 := by
    rw [show (4 : ℝ) = 2 ^ 2 by norm_num]
    exact Real.sqrt_sq (by norm_num)
  push_cast
  norm_num [hs4]

/-- The root child loop skips any prefix without a `worldbody` element. -/
theorem rootChildrenLoop_skip (m : MJCFModel) (pre rest : List XmlNode)
    (hpre : ∀ c ∈ pre, c.tagName ≠ "worldbody") :
    rootChildrenLoop m (pre ++ rest) = rootChildrenLoop m rest := by
  induction pre with
  | nil => rfl
  | cons c pre ih =>
    rw [List.cons_append, rootChildrenLoop, if_neg (hpre c (by simp))]
    exact ih (fun x hx => hpre x (by simp [hx]))

/-- The worldbody child loop fails with `WorldBodyInvalidChildren` when
some child is `inertial`, `joint` or `freejoint` and every `geom` child
parses (the stub's only error is an unknown geometry type). -/
theorem worldbodyChildrenLoop_invalid (m : MJCFModel) (kids : List XmlNode)
    (hbad : ∃ c ∈ kids, c.tagName = "inertial" ∨ c.tagName = "joint" ∨
      c.tagName = "freejoint")
    (hgeom : ∀ c ∈ kids, c.tagName = "geom" →
      ∀ m2 : MJCFModel, (m2.parse_geom c).1 = .ok ()) :
    (worldbodyChildrenLoop m kids).1 = .error .WorldBodyInvalidChildren := by
  induction kids with
  | nil => simp at hbad
  | cons c rest ih =>
    by_cases hb : c.tagName = "inertial" ∨ c.tagName = "joint" ∨
        c.tagName = "freejoint"
    · simp [worldbodyChildrenLoop, hb]
    · have hbad' : ∃ x ∈ rest, x.tagName = "inertial" ∨ x.tagName = "joint" ∨
          x.tagName = "freejoint" := by
        rcases hbad with ⟨x, hx, hxb⟩
        rcases List.mem_cons.mp hx with rfl | hx2
        · exact absurd hxb hb
        · exact ⟨x, hx2, hxb⟩
      have hgeom' : ∀ x ∈ rest, x.tagName = "geom" →
          ∀ m2 : MJCFModel, (m2.parse_geom x).1 = .ok () :=
        fun x hx => hgeom x (by simp [hx])
      have htail := ih hbad' hgeom'
      rw [worldbodyChildrenLoop, if_neg hb]
      by_cases hbody : c.tagName = "body"
      · simp [hbody, htail]
      · by_cases hg : c.tagName = "geom"
        · rcases hpg : m.parse_geom c with ⟨pr, pw⟩
          have : pr = .ok () := by
            have := hgeom c (by simp) hg m
            rw [hpg] at this
            exact this
          subst this
          simp [hbody, hg, hpg]
          rcases hrest : worldbodyChildrenLoop m rest with ⟨r2, w2⟩
          rw [hrest] at htail
          simp at htail
          simp [htail]
        · by_cases hscl : c.tagName = "site" ∨ c.tagName = "camera" ∨
              c.tagName = "light"
          · simp [hbody, hg, hscl, htail]
          · rcases hrest : worldbodyChildrenLoop m rest with ⟨r2, w2⟩
            rw [hrest] at htail
            simp at htail
            simp [hbody, hg, hscl, hrest, htail]

/-- A root named `mujoco` whose child loop fails (for every starting
model) makes the whole parse fail with that error. -/
theorem parse_xml_string_error (root : XmlNode) (e : MJCFParseErrorKind)
    (hroot : root.tagName = "mujoco")
    (hl : ∀ m : MJCFModel, (rootChildrenLoop m root.children).1 = .error e) :
    (MJCFModel.parse_xml_string root).1 = .error e := by
  simp only [MJCFModel.parse_xml_string]
  rw [if_neg (by simp [hroot])]
  split
  next e1 w1 heq =>
    have h2 := hl (initialModel root)
    rw [heq] at h2
    simpa using h2
  next a w1 heq =>
    have h2 := hl (initialModel root)
    rw [heq] at h2
    simp at h2

/-- C8: a document whose (single) `worldbody` has a direct child named
`inertial`, `joint` or `freejoint` fails as a whole with
`WorldBodyInvalidChildren` (mjcf_model.rs lines 81-95), provided no
earlier error fires: the worldbody carries no attributes (those would
raise `WorldBodyHasAttributes` first, line 75) and any `geom` children of
the worldbody parse (an unknown geometry type would raise
`InvalidGeomType` first if it comes earlier in the child list). -/
theorem worldbody_invalid_children_fatal (rattrs : List (String × String))
    (pre post kids : List XmlNode)
    (hpre : ∀ c ∈ pre, c.tagName ≠ "worldbody")
    (hbad : ∃ c ∈ kids, c.tagName = "inertial" ∨ c.tagName = "joint" ∨
      c.tagName = "freejoint")
    (hgeom : ∀ c ∈ kids, c.tagName = "geom" →
      ∀ m2 : MJCFModel, (m2.parse_geom c).1 = .ok ()) :
    (MJCFModel.parse_xml_string (.element "mujoco" rattrs
        (pre ++ XmlNode.element "worldbody" [] kids :: post))).1 =
      .error .WorldBodyInvalidChildren := by
  refine parse_xml_string_error _ _ rfl (fun m => ?_)
  rw [show (XmlNode.element "mujoco" rattrs
      (pre ++ XmlNode.element "worldbody" [] kids :: post)).children =
      pre ++ XmlNode.element "worldbody" [] kids :: post from rfl]
  rw [rootChildrenLoop_skip m _ _ hpre]
  rw [rootChildrenLoop,
    if_pos (show (XmlNode.element "worldbody" [] kids).tagName = "worldbody" from rfl)]
  have hwb : (m.parse_worldbody (XmlNode.element "worldbody" [] kids)).1 =
      .error .WorldBodyInvalidChildren := by
    rw [show m.parse_worldbody (XmlNode.element "worldbody" [] kids) =
        worldbodyChildrenLoop m kids from by
      simp [MJCFModel.parse_worldbody, XmlNode.attrList, XmlNode.children]]
    exact worldbodyChildrenLoop_invalid m kids hbad hgeom
  rcases hrun : m.parse_worldbody (XmlNode.element "worldbody" [] kids) with ⟨r, w⟩
  rw [hrun] at hwb
  cases r with
  | error e2 => simpa using hwb
  | ok u => simp at hwb

/-- C8 witness: `<mujoco><worldbody><joint></joint></worldbody></mujoco>`. -/
theorem worldbody_invalid_children_fatal_witness :
    (MJCFModel.parse_xml_string jointChildDoc).1 =
      .error .WorldBodyInvalidChildren := by
  have h := worldbody_invalid_children_fatal [] [] []
    [XmlNode.element "joint" [] []] (by simp)
    ⟨XmlNode.element "joint" [] [], by simp, Or.inr (Or.inl rfl)⟩
    (by
      intro c hc hg m2
      simp at hc
      subst hc
      simp [XmlNode.tagName] at hg)
  simpa [jointChildDoc] using h

/-- C10: a direct child of the `mujoco` root that is not named `worldbody`
is silently skipped by the `_ => {}` arm of the root loop
(mjcf_model.rs lines 59-64): removing it changes neither the result (model
or error) nor the emitted diagnostics. -/
theorem non_worldbody_root_children_skipped (rattrs : List (String × String))
    (pre post : List XmlNode) (c : XmlNode) (hc : c.tagName ≠ "worldbody") :
    MJCFModel.parse_xml_string (.element "mujoco" rattrs (pre ++ c :: post)) =
      MJCFModel.parse_xml_string (.element "mujoco" rattrs (pre ++ post)) := by
  have hloop : ∀ m : MJCFModel,
      rootChildrenLoop m (pre ++ c :: post) = rootChildrenLoop m (pre ++ post) := by
    intro m
    induction pre with
    | nil => simp [rootChildrenLoop, hc]
    | cons x pre ih =>
      simp only [List.cons_append]
      rw [rootChildrenLoop, rootChildrenLoop]
      by_cases hx : x.tagName = "worldbody"
      · rw [if_pos hx, if_pos hx]
        rcases hwx : m.parse_worldbody x with ⟨rx, wx⟩
        cases rx with
        | error e => rfl
        | ok u => rw [ih]
      · rw [if_neg hx, if_neg hx]
        exact ih
  simp only [MJCFModel.parse_xml_string]
  rw [if_neg (by simp [XmlNode.tagName]), if_neg (by simp [XmlNode.tagName])]
  simp only [XmlNode.children]
  rw [hloop]
  simp [initialModel, XmlNode.attr, XmlNode.attrList]

/-- C10 witness: an `asset` child before the `worldbody` contributes
nothing — result and diagnostics agree with the document without it. -/
theorem non_worldbody_root_children_skipped_witness :
    MJCFModel.parse_xml_string assetThenWorldbodyDoc =
      MJCFModel.parse_xml_string worldbodyOnlyDoc := by
  have h := non_worldbody_root_children_skipped [] []
    [XmlNode.element "worldbody" [] []] (XmlNode.element "asset" [] [])
    (by simp [XmlNode.tagName])
  simpa [assetThenWorldbodyDoc, worldbodyOnlyDoc] using h

/-- Appending a fresh attribute leaves every other attribute lookup
unchanged. -/
theorem attr_withAttr_ne (n : XmlNode) (a v k : String) (hk : k ≠ a) :
    (n.withAttr a v).attr k = n.attr k := by
  cases n with
  | text s => rfl
  | element nm attrs ch =>
    simp only [XmlNode.withAttr, XmlNode.attr, XmlNode.attrList, List.find?_append]
    have hlast : (([(a, v)] : List (String × String)).find?
        (fun p => p.1 = k)) = none := by
      simp [List.find?, Ne.symm hk]
    rw [hlast]
    cases attrs.find? (fun p => p.1 = k) <;> simp

theorem hasAttr_withAttr_ne (n : XmlNode) (a v k : String) (hk : k ≠ a) :
    (n.withAttr a v).hasAttr k = n.hasAttr k := by
  simp [XmlNode.hasAttr, attr_withAttr_ne n a v k hk]

/-- Appending a fresh attribute makes its lookup succeed. -/
theorem attr_withAttr_self (nm : String) (attrs : List (String × String))
    (ch : List XmlNode) (a v : String)
    (hnot : (XmlNode.element nm attrs ch).hasAttr a = false) :
    ((XmlNode.element nm attrs ch).withAttr a v).attr a = some v := by
  have hfind : attrs.find? (fun p => p.1 = a) = none := by
    rcases hf : attrs.find? (fun p => p.1 = a) with _ | p
    · exact hf
    · exfalso
      simp only [XmlNode.hasAttr, XmlNode.attr, XmlNode.attrList, hf] at hnot
      simp at hnot
  simp [XmlNode.withAttr, XmlNode.attr, XmlNode.attrList, List.find?_append, hfind,
    List.find?]

/-- Turning one absent-and-unselected element present adds exactly one to
a filter's length, when the element occurs once in the base list. -/
theorem filter_length_add_one (l : List String) (p p' : String → Bool)
    (a : String) (hca : l.count a = 1)
    (hother : ∀ x ∈ l, x ≠ a → p' x = p x)
    (hpa : p a = false) (hp'a : p' a = true) :
    (l.filter p').length = (l.filter p).length + 1 := by
  induction l with
  | nil => simp at hca
  | cons x xs ih =>
    by_cases hx : x = a
    · subst hx
      have hxs : x ∉ xs := by
        rw [List.count_cons_self] at hca
        exact List.count_eq_zero.mp (by omega)
      have hfilters : xs.filter p' = xs.filter p :=
        List.filter_congr (fun y hy =>
          hother y (by simp [hy]) (fun h => hxs (h ▸ hy)))
      simp [List.filter_cons, hpa, hp'a, hfilters]
    · have hca' : xs.count a = 1 := by
        rw [List.count_cons] at hca
        rw [if_neg (by simp [hx])] at hca
        simpa using hca
      have hother' : ∀ y ∈ xs, y ≠ a → p' y = p y :=
        fun y hy => hother y (List.mem_cons_of_mem _ hy)
      have hpx : p' x = p x := hother x (by simp) hx
      rw [List.filter_cons, List.filter_cons, hpx]
      cases hpv : p x with
      | true => simp [ih hca' hother']
      | false => simp [ih hca' hother']

/-- C9: adding any attribute from the 19-name unsupported list to a
`<geom>` that parses leaves the returned descriptor (shape, name, pose)
unchanged, never causes a failure, and adds exactly one diagnostic entry
(geom.rs lines 184-258: those attributes are read only by the audit
warnings, never by the shape/name/translation/orientation blocks). -/
theorem unsupported_attr_frame (n : XmlNode) (d : ColliderDesc) (a v : String)
    (ha : a ∈ unsupportedGeomAttrNames)
    (hnot : n.hasAttr a = false)
    (hd : (parse_geom_node n).1 = .ok d) :
    (parse_geom_node (n.withAttr a v)).1 = .ok d ∧
    (parse_geom_node (n.withAttr a v)).2.length =
      (parse_geom_node n).2.length + 1 := by
  cases n with
  | text s =>
    rw [show (parse_geom_node (.text s)).1 =
        .error (.RequiredAttributeMissing "size") from by
      with_unfolding_all rfl] at hd
    exact absurd hd (by simp)
  | element nm attrs ch =>
    set n : XmlNode := XmlNode.element nm attrs ch with hn
    have hkey : ∀ k ∈ (["type", "size", "fromto", "pos", "name", "quat",
        "axisangle", "euler", "xyaxes", "zaxis"] : List String), k ≠ a := by
      fin_cases ha <;> decide
    have hT := attr_withAttr_ne n a v "type" (hkey _ (by simp))
    have hS := attr_withAttr_ne n a v "size" (hkey _ (by simp))
    have hF := attr_withAttr_ne n a v "fromto" (hkey _ (by simp))
    have hP := attr_withAttr_ne n a v "pos" (hkey _ (by simp))
    have hN := attr_withAttr_ne n a v "name" (hkey _ (by simp))
    have hshape : shapeOf (n.withAttr a v) = shapeOf n := by
      simp only [shapeOf]
      rw [hT, hS, hF]
    have htrans : translationOf (n.withAttr a v) = translationOf n := by
      simp only [translationOf]
      rw [hT, hF, hP]
    have hpoa : ∀ flag : Bool, parse_orientation_attribute (n.withAttr a v) flag =
        parse_orientation_attribute n flag := by
      intro flag
      have hsub : ∀ x ∈ orientationAttrNames, x ≠ a := by
        fin_cases ha <;> decide
      have hfil : orientationAttrNames.filter (fun x => (n.withAttr a v).hasAttr x) =
          orientationAttrNames.filter (fun x => n.hasAttr x) :=
        List.filter_congr (fun x hx => hasAttr_withAttr_ne n a v x (hsub x hx))
      simp only [parse_orientation_attribute]
      rw [hfil,
        attr_withAttr_ne n a v "quat" (hkey _ (by simp)),
        attr_withAttr_ne n a v "axisangle" (hkey _ (by simp)),
        attr_withAttr_ne n a v "euler" (hkey _ (by simp)),
        attr_withAttr_ne n a v "xyaxes" (hkey _ (by simp)),
        attr_withAttr_ne n a v "zaxis" (hkey _ (by simp))]
    have horient : orientationOf (n.withAttr a v) = orientationOf n := by
      simp only [orientationOf]
      rw [hT]
      cases hty : n.attr "type" with
      | none => simp [hpoa]
      | some t => simp [hpoa]
    have hp'a : (n.withAttr a v).hasAttr a = true := by
      simp [XmlNode.hasAttr, attr_withAttr_self nm attrs ch a v (hn ▸ hnot)]
    have hauditlen : (auditWarnings (n.withAttr a v)).length =
        (auditWarnings n).length + 1 := by
      unfold auditWarnings
      rw [List.length_map, List.length_map]
      refine filter_length_add_one _ _ _ a ?_ ?_ hnot hp'a
      · fin_cases ha <;> decide
      · intro x hx hxa
        exact hasAttr_withAttr_ne n a v x hxa
    rcases hsh : shapeOf n with ⟨rs, w1⟩
    cases rs with
    | error e => simp [parse_geom_node, hsh] at hd
    | ok sh =>
      rcases htr : translationOf n with e | tv
      · simp [parse_geom_node, hsh, htr] at hd
      · rcases hor : orientationOf n with ⟨ro, w2⟩
        cases ro with
        | error e => simp [parse_geom_node, hsh, htr, hor] at hd
        | ok q =>
          have hpn : parse_geom_node n = (.ok ⟨sh, n.attr "name", tv, q⟩,
              w1 ++ w2 ++ auditWarnings n) := by
            simp [parse_geom_node, hsh, htr, hor]
          have hpn' : parse_geom_node (n.withAttr a v) =
              (.ok ⟨sh, n.attr "name", tv, q⟩,
               w1 ++ w2 ++ auditWarnings (n.withAttr a v)) := by
            simp [parse_geom_node, hshape, hsh, htrans, htr, horient, hor, hN]
          rw [hpn] at hd
          simp only [Except.ok.injEq] at hd
          subst hd
          rw [hpn, hpn']
          refine ⟨rfl, ?_⟩
          simp only [List.length_append, hauditlen]
          omega

/-- C9 witness: adding `rgba` to a default sphere leaves the descriptor
unchanged and adds one diagnostic. -/
theorem unsupported_attr_frame_witness :
    (parse_geom_node (sphereDefaultNode.withAttr "rgba" "1 0 0 1")).1 =
      .ok ⟨.ball ((2 : ℚ) : ℝ), none, ⟨0, 0, 0⟩, quatId⟩ ∧
    (parse_geom_node (sphereDefaultNode.withAttr "rgba" "1 0 0 1")).2.length =
      (parse_geom_node sphereDefaultNode).2.length + 1 := by
  have h := unsupported_attr_frame sphereDefaultNode
    ⟨.ball ((2 : ℚ) : ℝ), none, ⟨0, 0, 0⟩, quatId⟩ "rgba" "1 0 0 1"
    (by simp [unsupportedGeomAttrNames]) (by with_unfolding_all rfl)
    (by with_unfolding_all rfl)
  exact h

end MJCF
